import Mathlib

/-!
Shallow embedding of the candidate-disambiguation core of the miami-records
repository: `src/processors/data_processor.py` and `src/algorithms/scoring.py`.

Modelling conventions:
* Python floats are modelled as rationals (`ℚ`); the decimal weight literals
  (`0.35`, …) are exact rationals.
* Python sets of strings are modelled as duplicate-free lists (`List.dedup`);
  every use of a set in the source is order-insensitive except `sorted(...)`,
  which is modelled by an explicit code-point insertion sort.
* Python `None` is `Option.none`; a field that may be absent is an `Option`.
* A Python exception escaping a function is modelled as an `Option.none`
  result of that function.
* `rapidfuzz.fuzz.token_set_ratio` is an external library function; it is
  modelled as an explicit parameter `fuzz : String → String → ℚ` threaded
  through the scoring functions.
* Only the ASCII fragment of Python's `str` semantics (`upper`, `\w`, `\d`,
  `\s`) is modelled.
-/

/-- ASCII fragment of the Python regex word character class `\w`. -/
def isWordChar (ch : Char) : Bool := ch.isAlphanum || ch == '_'

/-- Worker for `pySplit`: `acc` holds the characters of the token being
read, in reverse order. -/
def splitWSAux : List Char → List Char → List String
  | acc, [] => if acc.isEmpty then [] else [String.mk acc.reverse]
  | acc, c :: cs =>
    if c.isWhitespace then
      if acc.isEmpty then splitWSAux [] cs
      else String.mk acc.reverse :: splitWSAux [] cs
    else splitWSAux (c :: acc) cs

/-- Python `str.split()` with no argument: split on whitespace runs and
drop empty pieces. -/
def pySplit (s : String) : List String := splitWSAux [] s.data

/-- Python `str.upper()` (ASCII fragment). -/
def pyUpper (s : String) : String := String.mk (s.data.map Char.toUpper)

/-- Python `str.lower()` (ASCII fragment). -/
def pyLower (s : String) : String := String.mk (s.data.map Char.toLower)

/-- Python `str.strip()` with no argument: remove leading and trailing
whitespace. -/
def pyStrip (s : String) : String :=
  String.mk (((s.data.dropWhile Char.isWhitespace).reverse.dropWhile
    Char.isWhitespace).reverse)

/-- Python `sep.join(...)` with a single-space separator. -/
def joinSpace : List String → String
  | [] => ""
  | [x] => x
  | x :: y :: xs => x ++ " " ++ joinSpace (y :: xs)

/-- Python `s[:n]` on strings. -/
def pyTake (s : String) (n : Nat) : String := String.mk (s.data.take n)

/-- Code-point order on character lists, the order Python uses to compare
strings (ASCII fragment). -/
def charListLt : List Char → List Char → Bool
  | [], [] => false
  | [], _ :: _ => true
  | _ :: _, [] => false
  | a :: as, b :: bs => if a == b then charListLt as bs else decide (a.val < b.val)

/-- Code-point order on strings. -/
def strLtb (a b : String) : Bool := charListLt a.data b.data

/-- Insert a string into a sorted list, keeping it sorted. -/
def insertSorted (x : String) : List String → List String
  | [] => [x]
  | y :: ys => if strLtb y x then y :: insertSorted x ys else x :: y :: ys

/-- Python `sorted(...)` on a set of strings, modelled as insertion sort by
code-point order. -/
def sortStrings (l : List String) : List String := l.foldr insertSorted []

/-- Prefix test on character lists. -/
def matchesAt : List Char → List Char → Bool
  | [], _ => true
  | _ :: _, [] => false
  | a :: as, b :: bs => a == b && matchesAt as bs

/-- Contiguous-substring test on character lists. -/
def listHasSub (needle : List Char) : List Char → Bool
  | [] => needle.isEmpty
  | c :: cs => matchesAt needle (c :: cs) || listHasSub needle cs

/-- Python's `needle in hay` substring operator. -/
def containsSubstr (hay needle : String) : Bool := listHasSub needle.data hay.data

/-- One entry of the `search_variants` list produced by
`generate_name_variants` (data_processor.py, lines 143-174). -/
structure NameVariant where
  search_name : String
  middle_name : String
  variant_type : String
deriving DecidableEq

/-- The dictionary produced by `normalize_name`
(data_processor.py, lines 42-76). -/
structure NormalizedName where
  first : String
  middle : String
  last : String
  full : String
  has_middle : Bool
  middle_initial : String
  search_variants : List NameVariant
deriving DecidableEq

/-- The dictionary produced by `normalize_address`
(data_processor.py, lines 176-198).  The Python `set` of tokens is a
duplicate-free list. -/
structure NormalizedAddress where
  raw : String
  tokens : List String
  street_num : String
  street_name : String
deriving DecidableEq

/-- A raw candidate record (scoring.py consumes these as dicts).
Fields that the source reads with `.get(key)` and that may be absent or
`None` are `Option`s; plain text fields default to the empty string the
source supplies as `.get(key, '')` default. -/
structure Candidate where
  name : String := ""
  address : String := ""
  addresses : Option (List String) := none
  phone : Option String := none
  all_phones : Option (List String) := none
  raw_text : String := ""
deriving DecidableEq

/-- Embedding of `normalize_phone` (data_processor.py, lines 8-21): keep the digits,
require exactly ten of them, and format as `(XXX) XXX-XXXX`. -/
def normalizePhone (phoneStr : String) : Option String :=
  if phoneStr == "" then none
  else
    let digits := phoneStr.data.filter Char.isDigit
    if digits.length != 10 then none
    else
      some ("(" ++ String.mk (digits.take 3) ++ ") "
        ++ String.mk ((digits.drop 3).take 3) ++ "-" ++ String.mk (digits.drop 6))

/-- The fixed set of common first names used by `detect_name_format`
(data_processor.py, lines 99-105). -/
def commonFirstNames : List String :=
  ["JOHN", "JAMES", "MICHAEL", "MARY", "PATRICIA", "LINDA", "BARBARA",
   "ELIZABETH", "JENNIFER", "MARIA", "SUSAN", "MARGARET", "DOROTHY",
   "LISA", "NANCY", "KAREN", "BETTY", "HELEN", "SANDRA", "DONNA",
   "ROBERT", "WILLIAM", "DAVID", "RICHARD", "CHARLES", "JOSEPH",
   "THOMAS", "CHRISTOPHER", "DANIEL", "MATTHEW", "ANTHONY", "MARK",
   "DONALD", "STEVEN", "PAUL", "ANDREW", "JOSHUA", "KENNETH", "KEVIN",
   "BRIAN", "GEORGE", "TIMOTHY", "RONALD", "JASON", "EDWARD", "JACOB"]

/-- Embedding of `detect_name_format` (data_processor.py, lines 78-126) applied to the
three parts of a three-token name.  The dict it builds starts from
`full = ""` and `search_variants` absent (modelled as `[]`); `normalize_name`
overwrites `search_variants` afterwards but not `full`. -/
def detectNameFormat (p0 p1 p2 : String) : NormalizedName :=
  if p1.length == 1 then
    -- Likely LAST FIRST MIDDLE format (source lines 90-96)
    { first := p1, middle := p2, last := p0, full := "",
      has_middle := true, middle_initial := p2, search_variants := [] }
  else if commonFirstNames.contains p0 then
    -- Likely FIRST MIDDLE LAST format (source lines 107-115)
    { first := p0, middle := p1, last := p2, full := "",
      has_middle := true,
      middle_initial := if p1.length == 1 then p1 else "",
      search_variants := [] }
  else
    -- Default to LAST FIRST MIDDLE format (source lines 116-124)
    { first := p1, middle := p2, last := p0, full := "",
      has_middle := true,
      middle_initial := if p2.length == 1 then p2 else "",
      search_variants := [] }

/-- Embedding of `handle_compound_names` (data_processor.py, lines 128-141): all but the
last token form the last name, the last token is the first name. -/
def handleCompoundNames (parts : List String) : NormalizedName :=
  if 3 ≤ parts.length then
    { first := parts.getLastD "", middle := "",
      last := joinSpace parts.dropLast, full := "",
      has_middle := false, middle_initial := "", search_variants := [] }
  else
    { first := "", middle := "", last := "", full := "",
      has_middle := false, middle_initial := "", search_variants := [] }

/-- Embedding of `generate_name_variants` (data_processor.py, lines 143-174): always a
"basic" variant, plus a "middle_initial" variant when a middle initial (or a
single-character middle name) is present. -/
def generateNameVariants (n : NormalizedName) : List NameVariant :=
  let basicVariant : NameVariant :=
    { search_name := n.first ++ " " ++ n.last, middle_name := "",
      variant_type := "basic" }
  if n.has_middle && n.middle_initial != "" then
    [basicVariant,
     { search_name := n.first ++ " " ++ n.last,
       middle_name := pyLower n.middle_initial,
       variant_type := "middle_initial" }]
  else if n.has_middle && n.middle != "" && n.middle.length == 1 then
    [basicVariant,
     { search_name := n.first ++ " " ++ n.last,
       middle_name := pyLower n.middle,
       variant_type := "middle_initial" }]
  else [basicVariant]

/-- The cleaning step of `normalize_name` (data_processor.py, line 51):
`re.sub(r'[^\w\s]', ' ', name.upper().strip())`. -/
def pyCleanName (name : String) : String :=
  String.mk ((pyStrip (pyUpper name)).data.map
    (fun ch => if isWordChar ch || ch.isWhitespace then ch else ' '))

/-- The token list of `normalize_name` (data_processor.py, line 52):
split the cleaned name and keep only tokens longer than one character. -/
def pyNameParts (name : String) : List String :=
  (pySplit (pyCleanName name)).filter (fun p => decide (1 < p.length))

/-- The token-count dispatch of `normalize_name`
(data_processor.py, lines 54-71), before `search_variants` is filled in.
With zero surviving tokens no branch fires and the initial dict is kept. -/
def nameCoreFromParts (full : String) (parts : List String) : NormalizedName :=
  match parts with
  | [] =>
    { first := "", middle := "", last := "", full := full,
      has_middle := false, middle_initial := "", search_variants := [] }
  | [p] =>
    -- Single name (source line 62)
    { first := p, middle := "", last := "", full := full,
      has_middle := false, middle_initial := "", search_variants := [] }
  | [a, b] =>
    -- Standard LAST FIRST format (source line 65)
    { first := b, middle := "", last := a, full := full,
      has_middle := false, middle_initial := "", search_variants := [] }
  | [a, b, c] =>
    -- LAST FIRST MIDDLE or FIRST MIDDLE LAST (source line 68);
    -- the result dict replaces the initial one, so `full` becomes "".
    detectNameFormat a b c
  | a :: b :: c :: d :: rest =>
    -- Compound names (source line 71); `full` becomes "" here as well.
    handleCompoundNames (a :: b :: c :: d :: rest)

/-- Embedding of `normalize_name` (data_processor.py, lines 42-76). -/
def normalizeName (name : String) : NormalizedName :=
  if name == "" then
    { first := "", middle := "", last := "", full := "",
      has_middle := false, middle_initial := "", search_variants := [] }
  else
    let r := nameCoreFromParts (pyStrip name) (pyNameParts name)
    { r with search_variants := generateNameVariants r }

/-- The cleaning step of `normalize_address` (data_processor.py, line 181):
`re.sub(r'[^\w\s#]', ' ', addr.upper().strip())`. -/
def pyCleanAddr (addr : String) : String :=
  String.mk ((pyStrip (pyUpper addr)).data.map
    (fun ch => if isWordChar ch || ch.isWhitespace || ch == '#' then ch else ' '))

/-- Directionals and street-type words removed from `street_name`
(data_processor.py, line 189). -/
def streetTypeWords : List String :=
  ["N", "S", "E", "W", "ST", "AVE", "BLVD", "DR", "RD", "CT", "LN", "PL", "WAY"]

/-- Worker modelling `re.search(r'\b(\d+)\b', cleaned)`
(data_processor.py, line 185): the first maximal digit run whose two
neighbours (when present) are not word characters.  `prevWord` records
whether the previous character was a word character; `acc` holds the digits
of the current candidate run in reverse order. -/
def scanStreetNum : Bool → List Char → List Char → String
  | _, acc, [] => if acc.isEmpty then "" else String.mk acc.reverse
  | prevWord, acc, ch :: cs =>
    if ch.isDigit then
      if !acc.isEmpty then scanStreetNum true (ch :: acc) cs
      else if !prevWord then scanStreetNum true [ch] cs
      else scanStreetNum true [] cs
    else
      if !acc.isEmpty && !isWordChar ch then String.mk acc.reverse
      else scanStreetNum (isWordChar ch) [] cs

/-- First `\b`-delimited digit run of a string, or `""` when there is none. -/
def findStreetNum (s : String) : String := scanStreetNum false [] s.data

/-- Embedding of `normalize_address` (data_processor.py, lines 176-198). -/
def normalizeAddress (addr : String) : NormalizedAddress :=
  if addr == "" then
    { raw := "", tokens := [], street_num := "", street_name := "" }
  else
    let cleaned := pyCleanAddr addr
    let tokens := ((pySplit cleaned).filter (fun p => decide (1 < p.length))).dedup
    let streetNum := findStreetNum cleaned
    let streetTokens := tokens.filter (fun t => !streetTypeWords.contains t)
    let streetTokens :=
      if streetNum != "" then streetTokens.filter (fun t => t != streetNum)
      else streetTokens
    { raw := pyStrip addr, tokens := tokens, street_num := streetNum,
      street_name :=
        if streetTokens.isEmpty then "" else joinSpace (sortStrings streetTokens) }

/-- Embedding of `score_name_match` (scoring.py, lines 62-99).  `fuzz` stands for
`rapidfuzz.fuzz.token_set_ratio`.  The source reads
`search_variants[0]` on both sides (lines 93-94); on an empty variant list
that raises `IndexError`, modelled by a `none` result. -/
def scoreNameMatch (fuzz : String → String → ℚ) (targetName : NormalizedName)
    (candidateName : String) : Option ℚ :=
  if candidateName == "" then some 0
  else
    let candName := normalizeName candidateName
    -- Exact match on both first and last (source lines 71-74)
    if targetName.first != "" && targetName.last != "" &&
        targetName.first == candName.first && targetName.last == candName.last then
      some 100
    -- Exact last, first starts with the same first three letters (lines 76-80)
    else if targetName.last != "" && targetName.last == candName.last &&
        targetName.first != "" && candName.first != "" &&
        matchesAt (pyTake targetName.first 3).data candName.first.data then
      some 95
    else
      -- Middle name matching bonus (source lines 82-87)
      let middleBonus : ℚ :=
        if targetName.has_middle && candName.has_middle &&
            targetName.middle_initial != "" && candName.middle_initial != "" &&
            targetName.middle_initial == candName.middle_initial then 30 else 0
      -- Fuzzy matching on full names (source line 90)
      let fullSimilarity := fuzz targetName.full candName.full
      -- search_variants[0] accesses (source lines 93-94)
      match targetName.search_variants.head? with
      | none => none
      | some tv =>
        match candName.search_variants.head? with
        | none => none
        | some cv =>
          let searchSimilarity := fuzz tv.search_name cv.search_name
          some (max fullSimilarity searchSimilarity + middleBonus)

/-- Street-number term of `calculate_address_similarity`
(scoring.py, lines 124-126): +50 on an exact match. -/
def streetNumScore (targetAddr candAddr : NormalizedAddress) : ℚ :=
  if targetAddr.street_num != "" && targetAddr.street_num == candAddr.street_num
  then 50 else 0

/-- Street-name term of `calculate_address_similarity`
(scoring.py, lines 128-138): +30 on an exact match, else +20 when one
lower-cased street name contains the other. -/
def streetNameScore (targetAddr candAddr : NormalizedAddress) : ℚ :=
  if targetAddr.street_name != "" && candAddr.street_name != "" &&
      targetAddr.street_name == candAddr.street_name then 30
  else if targetAddr.street_name != "" && candAddr.street_name != "" then
    if containsSubstr (pyLower candAddr.street_name) (pyLower targetAddr.street_name) ||
        containsSubstr (pyLower targetAddr.street_name) (pyLower candAddr.street_name)
    then 20 else 0
  else 0

/-- Token-overlap term of `calculate_address_similarity`
(scoring.py, lines 140-144): up to 30, proportional to the share of the
target's tokens that also occur in the candidate. -/
def tokenOverlapScore (targetAddr candAddr : NormalizedAddress) : ℚ :=
  let commonTokens := targetAddr.tokens.filter (fun t => candAddr.tokens.contains t)
  if !targetAddr.tokens.isEmpty then
    ((commonTokens.length : ℚ) / (targetAddr.tokens.length : ℚ)) * 30
  else 0

/-- Worker modelling `re.findall(r'\d+', s)` (scoring.py, lines 157-158):
all maximal digit runs of a string; `acc` holds the digits of the current
run in reverse order. -/
def digitRunsAux : List Char → List Char → List String
  | acc, [] => if acc.isEmpty then [] else [String.mk acc.reverse]
  | acc, ch :: cs =>
    if ch.isDigit then digitRunsAux (ch :: acc) cs
    else if acc.isEmpty then digitRunsAux [] cs
    else String.mk acc.reverse :: digitRunsAux [] cs

/-- All maximal digit runs of a string. -/
def digitRuns (s : String) : List String := digitRunsAux [] s.data

/-- Digit part of `calculate_partial_matches` (scoring.py, lines 155-160):
+25 when the digit-run sets of the two street numbers intersect. -/
def digitBonus (targetAddr candAddr : NormalizedAddress) : ℚ :=
  if targetAddr.street_num != "" && candAddr.street_num != "" then
    let targetNums := (digitRuns targetAddr.street_num).dedup
    let candNums := (digitRuns candAddr.street_num).dedup
    if targetNums.any (fun n => candNums.contains n) then 25 else 0
  else 0

/-- Stoplist of lower-cased street-type and directional words
(scoring.py, line 169). -/
def stopWordsLower : List String :=
  ["st", "ave", "blvd", "dr", "rd", "ct", "ln", "pl", "way", "n", "s", "e", "w"]

/-- Word part of `calculate_partial_matches` (scoring.py, lines 162-170):
+10 per meaningful common word of length > 2, capped at 25. -/
def wordBonus (targetAddr candAddr : NormalizedAddress) : ℚ :=
  let targetWords :=
    ((targetAddr.tokens.filter (fun w => decide (2 < w.length))).map pyLower).dedup
  let candWords :=
    ((candAddr.tokens.filter (fun w => decide (2 < w.length))).map pyLower).dedup
  let commonWords := targetWords.filter (fun w => candWords.contains w)
  if !commonWords.isEmpty then
    let meaningfulMatches :=
      commonWords.filter (fun w => !stopWordsLower.contains w)
    min ((meaningfulMatches.length : ℚ) * 10) 25
  else 0

/-- Embedding of `calculate_partial_matches` (scoring.py, lines 151-172). -/
def calculatePartialMatches (targetAddr candAddr : NormalizedAddress) : ℚ :=
  digitBonus targetAddr candAddr + wordBonus targetAddr candAddr

/-- Embedding of `calculate_address_similarity` (scoring.py, lines 120-149): the sum of
the four additive terms accumulated by the source. -/
def calculateAddressSimilarity (targetAddr candAddr : NormalizedAddress) : ℚ :=
  streetNumScore targetAddr candAddr + streetNameScore targetAddr candAddr +
    tokenOverlapScore targetAddr candAddr + calculatePartialMatches targetAddr candAddr

/-- Embedding of `score_address_match` (scoring.py, lines 101-118): best pairwise
similarity over all non-empty candidate address strings, clamped to 100. -/
def scoreAddressMatch (targetAddr : NormalizedAddress)
    (candidateAddresses : List String) : ℚ :=
  if candidateAddresses.isEmpty then 0
  else
    let best := candidateAddresses.foldl
      (fun acc s =>
        if s == "" then acc
        else max acc (calculateAddressSimilarity targetAddr (normalizeAddress s)))
      0
    min best 100

/-- The fixed list of Miami-area ZIP codes (scoring.py, lines 189-196). -/
def miamiZips : List String :=
  ["33101", "33102", "33109", "33125", "33126", "33127", "33128", "33129", "33130",
   "33131", "33132", "33133", "33134", "33135", "33136", "33137", "33138", "33139",
   "33140", "33141", "33142", "33143", "33144", "33145", "33146", "33147", "33150",
   "33151", "33152", "33153", "33154", "33155", "33156", "33157", "33158", "33160",
   "33161", "33162", "33163", "33164", "33165", "33166", "33167", "33168", "33169",
   "33170", "33172", "33173", "33174", "33175", "33176", "33177", "33178", "33179",
   "33180", "33181", "33182", "33183", "33184", "33185", "33186", "33187", "33188",
   "33189", "33190", "33193", "33194", "33196", "33197", "33199"]

/-- Embedding of `score_location_context` (scoring.py, lines 174-203): neutral 50, +30
for MIAMI else +20 for FL/FLORIDA, +25 for the first Miami ZIP found, then
clamped to 100.  The source's first-match-then-break loop over the ZIP list
is modelled by `List.any`. -/
def scoreLocationContext (rawText : String) : ℚ :=
  if rawText == "" then 50
  else
    let textUpper := pyUpper rawText
    min
      (50 +
        (if containsSubstr textUpper "MIAMI" then 30
         else if containsSubstr textUpper "FL" || containsSubstr textUpper "FLORIDA"
         then 20 else 0) +
        (if miamiZips.any (fun z => containsSubstr textUpper z) then 25 else 0))
      100

/-- Test for `re.match(r'\(\d{3}\) \d{3}-\d{4}', phone)`
(scoring.py, line 220): `re.match` anchors at the start only, so trailing
characters are allowed. -/
def isCanonicalPhoneFormat (p : String) : Bool :=
  match p.data with
  | '(' :: a1 :: a2 :: a3 :: ')' :: ' ' :: b1 :: b2 :: b3 :: '-'
      :: c1 :: c2 :: c3 :: c4 :: _ =>
    a1.isDigit && a2.isDigit && a3.isDigit && b1.isDigit && b2.isDigit &&
      b3.isDigit && c1.isDigit && c2.isDigit && c3.isDigit && c4.isDigit
  | _ => false

/-- Embedding of `score_data_quality` (scoring.py, lines 205-225): +40 for a name, +30
for an address, +30 for a canonically formatted phone else +20 for any
phone. -/
def scoreDataQuality (c : Candidate) : ℚ :=
  (if c.name != "" then 40 else 0) +
  (if c.address != "" then 30 else 0) +
  (match c.phone with
   | none => 0
   | some p =>
     if p == "" then 0
     else if isCanonicalPhoneFormat p then 30 else 20)

/-- The candidate-address list used by `score_candidate`
(scoring.py, line 19): `candidate.get('addresses', [candidate.get('address', '')])`. -/
def candAddressesOf (c : Candidate) : List String :=
  match c.addresses with
  | some l => l
  | none => [c.address]

/-- Python truthiness of `candidate.get('phone')` (scoring.py, line 11). -/
def phoneTruthy (c : Candidate) : Bool :=
  match c.phone with
  | none => false
  | some p => p != ""

/-- Embedding of `score_candidate` (scoring.py, lines 9-60): gatekeeper on the phone,
then a weighted sum of the four component scores divided by the maximal
weighted sum, with weights depending on whether the target address is
non-empty after trimming.  A `none` result models the `IndexError` that
`score_name_match` can raise. -/
def scoreCandidate (fuzz : String → String → ℚ) (targetName : NormalizedName)
    (targetAddr : NormalizedAddress) (c : Candidate) : Option ℚ :=
  if !phoneTruthy c then some 0
  else
    let hasTargetAddress := targetAddr.raw != "" && pyStrip targetAddr.raw != ""
    match scoreNameMatch fuzz targetName c.name with
    | none => none
    | some nameScore =>
      let addrScore := scoreAddressMatch targetAddr (candAddressesOf c)
      let locationScore := scoreLocationContext c.raw_text
      let qualityWeight : ℚ := if !hasTargetAddress then 0.10 else 0.05
      let qualityScore := scoreDataQuality c
      if hasTargetAddress then
        -- Normal scoring (source lines 21-36), quality added last (54-58)
        let total := nameScore * 0.35 + addrScore * 0.45 + locationScore * 0.15 +
          qualityScore * qualityWeight
        let maxTotal := (100 : ℚ) * 0.35 + 100 * 0.45 + 100 * 0.15 +
          100 * qualityWeight
        if 0 < maxTotal then some (total / maxTotal * 100) else some 0
      else
        -- Empty target address (source lines 37-52), quality added last
        let total := nameScore * 0.50 + locationScore * 0.30 + addrScore * 0.10 +
          qualityScore * qualityWeight
        let maxTotal := (100 : ℚ) * 0.50 + 100 * 0.30 + 100 * 0.10 +
          100 * qualityWeight
        if 0 < maxTotal then some (total / maxTotal * 100) else some 0

/-- Embedding of `_build_person_key` (scoring.py, lines 227-266). -/
def buildPersonKey (c : Candidate) : String :=
  let norm := normalizeName c.name
  if norm.first != "" || norm.last != "" then
    let first := pyStrip (pyUpper norm.first)
    let last := pyStrip (pyUpper norm.last)
    -- Remove a trailing single-letter token from the first name (lines 244-246)
    let firstParts := pySplit first
    let first :=
      if decide (1 < firstParts.length) && (firstParts.getLastD "").length == 1
      then joinSpace firstParts.dropLast else first
    let baseKey := pyStrip (first ++ " " ++ last)
    if !norm.has_middle then baseKey
    else if norm.middle_initial != "" && norm.middle_initial.length == 1 then
      baseKey ++ " " ++ norm.middle_initial
    else baseKey
  else
    match c.phone with
    | none => ""
    | some p => p

/-- Fixture for C5: the target-name dictionary the spec intends
`normalize_name` to produce for a name with first JOHN, last SMITH and a
detected single-letter middle initial J. -/
def targetJohnJ : NormalizedName :=
  { first := "JOHN", middle := "J", last := "SMITH", full := "SMITH JOHN J",
    has_middle := true, middle_initial := "J",
    search_variants :=
      [{ search_name := "JOHN SMITH", middle_name := "", variant_type := "basic" },
       { search_name := "JOHN SMITH", middle_name := "j",
         variant_type := "middle_initial" }] }

/-- Fixture for C8: a candidate with a name and a phone number. -/
def candWithPhone : Candidate :=
  { name := "SMITH JOHN", phone := some "(305) 555-1234" }

/-- Fixture for the C2 witness: a candidate whose name is empty (so the
name score is 0) and whose phone is present. -/
def candPhoneOnly : Candidate := { phone := some "3055551234" }


/-! ## Helper lemmas about name normalization -/

/-- Every token surviving the length filter of `normalize_name`
(data_processor.py, line 52) has at least two characters. -/
lemma pyNameParts_long (name : String) : ∀ p ∈ pyNameParts name, 1 < p.length := by
  intro p hp
  unfold pyNameParts at hp
  rw [List.mem_filter] at hp
  exact of_decide_eq_true hp.2

/-- On three tokens that all have at least two characters,
`detect_name_format` never records a middle initial and always records a
multi-character middle name. -/
lemma detectNameFormat_middle (p0 p1 p2 : String)
    (h1 : 1 < p1.length) (h2 : 1 < p2.length) :
    (detectNameFormat p0 p1 p2).middle_initial = "" ∧
      1 < (detectNameFormat p0 p1 p2).middle.length := by
  have e1 : (p1.length == 1) = false := by
    simp only [beq_eq_false_iff_ne, ne_eq]
    omega
  have e2 : (p2.length == 1) = false := by
    simp only [beq_eq_false_iff_ne, ne_eq]
    omega
  unfold detectNameFormat
  rw [e1]
  simp only [Bool.false_eq_true, if_false]
  split_ifs <;>
    first
      | exact ⟨rfl, h1⟩
      | exact ⟨rfl, h2⟩
      | simp_all

/-- The dict built by the token-count dispatch of `normalize_name` has no
middle initial and no single-character middle name, for any input token
list whose members all have at least two characters. -/
lemma nameCoreFromParts_middle (full : String) (parts : List String)
    (h : ∀ p ∈ parts, 1 < p.length) :
    (nameCoreFromParts full parts).middle_initial = "" ∧
      ((nameCoreFromParts full parts).middle = "" ∨
        1 < (nameCoreFromParts full parts).middle.length) := by
  rcases parts with _ | ⟨a, _ | ⟨b, _ | ⟨c, _ | ⟨d, rest⟩⟩⟩⟩
  · exact ⟨rfl, Or.inl rfl⟩
  · exact ⟨rfl, Or.inl rfl⟩
  · exact ⟨rfl, Or.inl rfl⟩
  · have hb : 1 < b.length := h b (by simp)
    have hc : 1 < c.length := h c (by simp)
    have hd := detectNameFormat_middle a b c hb hc
    exact ⟨hd.1, Or.inr hd.2⟩
  · constructor
    · show (handleCompoundNames (a :: b :: c :: d :: rest)).middle_initial = ""
      unfold handleCompoundNames
      split_ifs <;> rfl
    · show (handleCompoundNames (a :: b :: c :: d :: rest)).middle = "" ∨ _
      unfold handleCompoundNames
      split_ifs <;> exact Or.inl rfl

/-- The function `normalize_name` never produces a non-empty `middle_initial`: the
length filter removes every single-letter token before format detection. -/
lemma normalizeName_middle_initial (name : String) :
    (normalizeName name).middle_initial = "" := by
  unfold normalizeName
  split_ifs with h
  · rfl
  · exact (nameCoreFromParts_middle (pyStrip name) (pyNameParts name)
      (pyNameParts_long name)).1

/-- On a dict with no middle initial and no single-character middle name,
`generate_name_variants` returns just the basic variant. -/
lemma generateNameVariants_eq (n : NormalizedName)
    (h1 : n.middle_initial = "")
    (h2 : n.middle = "" ∨ 1 < n.middle.length) :
    generateNameVariants n =
      [{ search_name := n.first ++ " " ++ n.last, middle_name := "",
         variant_type := "basic" }] := by
  unfold generateNameVariants
  have e1 : (n.middle_initial != "") = false := by simp [h1]
  have e2 : (n.has_middle && n.middle != "" && (n.middle.length == 1)) = false := by
    rcases h2 with h2 | h2
    · simp [h2]
    · have : (n.middle.length == 1) = false := by
        simp only [beq_eq_false_iff_ne, ne_eq]
        omega
      simp [this]
  rw [e1]
  simp only [Bool.and_false, Bool.false_eq_true, if_false, e2]

/-- For every non-empty input, the variants of `normalize_name` are exactly
one basic variant. -/
lemma normalizeName_variants (name : String) (h : name ≠ "") :
    ∃ s, (normalizeName name).search_variants =
      [{ search_name := s, middle_name := "", variant_type := "basic" }] := by
  have hne : (name == "") = false := by simp [h]
  have hm := nameCoreFromParts_middle (pyStrip name) (pyNameParts name)
    (pyNameParts_long name)
  unfold normalizeName
  rw [hne]
  simp only [Bool.false_eq_true, if_false]
  exact ⟨_, generateNameVariants_eq _ hm.1 hm.2⟩

/-! ## Claim theorems: names and the phone gate -/

/-- C1: for every candidate whose `phone` field is `None` or the empty
string, `score_candidate` returns exactly 0, for every fuzzy-ratio oracle,
target name and target address. -/
theorem claim_C1_no_phone_scores_zero (fuzz : String → String → ℚ)
    (targetName : NormalizedName) (targetAddr : NormalizedAddress)
    (c : Candidate) (h : c.phone = none ∨ c.phone = some "") :
    scoreCandidate fuzz targetName targetAddr c = some 0 := by
  have hp : phoneTruthy c = false := by
    rcases h with h | h <;> simp [phoneTruthy, h]
  simp [scoreCandidate, hp]

/-- C1 witness: a concrete candidate with no phone scores 0. -/
theorem claim_C1_witness :
    scoreCandidate (fun _ _ => 0) (normalizeName "GARCIA MARIA")
      (normalizeAddress "456 OCEAN DR") { name := "MARIA GARCIA" } = some 0 :=
  claim_C1_no_phone_scores_zero _ _ _ _ (Or.inl rfl)

/-- C3: evaluation of `_build_person_key` on the three names of the claim.
Because `normalize_name` drops single-letter tokens before format
detection, all three names are parsed as two-token LAST FIRST names:
"SPENCER WARREN J" and "SPENCER WARREN L" share the key "WARREN SPENCER"
(the claim requires different keys), while "WARREN J SPENCER" gets the
distinct key "SPENCER WARREN" (the claim requires the same key). -/
theorem claim_C3_person_keys :
    buildPersonKey { name := "SPENCER WARREN J" } = "WARREN SPENCER" ∧
    buildPersonKey { name := "SPENCER WARREN L" } = "WARREN SPENCER" ∧
    buildPersonKey { name := "WARREN J SPENCER" } = "SPENCER WARREN" ∧
    buildPersonKey { name := "SPENCER WARREN J" } =
      buildPersonKey { name := "SPENCER WARREN L" } ∧
    buildPersonKey { name := "SPENCER WARREN J" } ≠
      buildPersonKey { name := "WARREN J SPENCER" } := by
  refine ⟨rfl, rfl, rfl, rfl, ?_⟩
  decide

/-- C4 counterexample: for the empty input string, `normalize_name`
returns an empty `search_variants` list, so no "basic" variant is
present. -/
theorem claim_C4_counterexample :
    ¬ ∃ v ∈ (normalizeName "").search_variants, v.variant_type = "basic" := by
  decide

/-- C4 (amended): for every non-empty input name string, `search_variants`
contains the "basic" variant, and contains a "middle_initial" variant only
if a single-letter middle token was detected. -/
theorem claim_C4_variants (name : String) (h : name ≠ "") :
    (∃ v ∈ (normalizeName name).search_variants, v.variant_type = "basic") ∧
    ∀ v ∈ (normalizeName name).search_variants,
      v.variant_type = "middle_initial" →
        (normalizeName name).has_middle = true ∧
        ((normalizeName name).middle_initial.length = 1 ∨
          (normalizeName name).middle.length = 1) := by
  obtain ⟨s, hs⟩ := normalizeName_variants name h
  rw [hs]
  constructor
  · exact ⟨_, List.mem_singleton_self _, rfl⟩
  · intro v hv htype
    rw [List.mem_singleton] at hv
    rw [hv] at htype
    simp at htype

/-- C4 witness at a concrete non-empty name. -/
theorem claim_C4_witness :
    (∃ v ∈ (normalizeName "SMITH JOHN").search_variants,
      v.variant_type = "basic") ∧
    ∀ v ∈ (normalizeName "SMITH JOHN").search_variants,
      v.variant_type = "middle_initial" →
        (normalizeName "SMITH JOHN").has_middle = true ∧
        ((normalizeName "SMITH JOHN").middle_initial.length = 1 ∨
          (normalizeName "SMITH JOHN").middle.length = 1) :=
  claim_C4_variants "SMITH JOHN" (by decide)

/-- C5: at the claim's own kind of input — a target with a detected
single-letter middle initial J and a candidate name carrying the trailing
initial J — `score_name_match` returns exactly the fuzzy base 100 with no
+30 bonus, because the candidate's normalized `middle_initial` is empty
(the token filter of `normalize_name` discards the initial). -/
theorem claim_C5_no_middle_bonus :
    scoreNameMatch (fun _ _ => 100) targetJohnJ "JONES BOB J" = some 100 ∧
    (normalizeName "JONES BOB J").middle_initial = "" := by
  constructor
  · have h : scoreNameMatch (fun _ _ => 100) targetJohnJ "JONES BOB J"
        = some (max (100 : ℚ) 100 + 0) := rfl
    rw [h]
    norm_num
  · rfl

/-! ## Claim theorems: phone normalization, totality, location context -/

/-- C7: `normalize_phone` maps "305.555.1234" and "(305) 555-1234" to the
same canonical "(305) 555-1234", returns `None` for the 7-digit
"555-1234", and in general returns `None` whenever the input does not
contain exactly ten digits. -/
theorem claim_C7_phone_normalization :
    normalizePhone "305.555.1234" = some "(305) 555-1234" ∧
    normalizePhone "(305) 555-1234" = some "(305) 555-1234" ∧
    normalizePhone "555-1234" = none ∧
    ∀ s : String, (s.data.filter Char.isDigit).length ≠ 10 →
      normalizePhone s = none := by
  refine ⟨rfl, rfl, rfl, ?_⟩
  intro s h
  unfold normalizePhone
  split_ifs <;> simp_all

/-- C7 witness: a five-digit input normalizes to `None`. -/
theorem claim_C7_witness : normalizePhone "12345" = none :=
  claim_C7_phone_normalization.2.2.2 "12345" (by decide)

/-- C8: with the target name produced by `normalize_name("")` (whose
`search_variants` is empty) and a candidate having both a name and a
phone, `score_candidate` hits the `search_variants[0]` access of
`score_name_match` and raises `IndexError` (modelled as `none`), for every
fuzzy-ratio oracle — contradicting the never-raises claim. -/
theorem claim_C8_crash (fuzz : String → String → ℚ) :
    scoreCandidate fuzz (normalizeName "") (normalizeAddress "")
      candWithPhone = none := rfl

/-- C10: for every input string, `score_location_context` returns a value
between the neutral base 50 and the clamp 100. -/
theorem claim_C10_location_range (s : String) :
    50 ≤ scoreLocationContext s ∧ scoreLocationContext s ≤ 100 := by
  unfold scoreLocationContext
  split_ifs with h
  · norm_num
  · constructor
    · refine le_min ?_ (by norm_num)
      have hsum : ∀ b1 b2 : ℚ, 0 ≤ b1 → 0 ≤ b2 → (50 : ℚ) ≤ 50 + b1 + b2 := by
        intro b1 b2 hb1 hb2
        linarith
      apply hsum
      · split_ifs <;> norm_num
      · split_ifs <;> norm_num
    · exact min_le_right _ _

/-! ## Claim theorem: composite weights -/

/-- C2: for every candidate with a non-empty phone whose name score is
defined, `score_candidate` is the weighted sum of the four component
scores divided by 100 times the weight sum, times 100; the weights are
name .50 / address .10 / location .30 / quality .10 when the trimmed
target raw address is empty, and .35 / .45 / .15 / .05 otherwise. -/
theorem claim_C2_weighted_average (fuzz : String → String → ℚ)
    (targetName : NormalizedName) (targetAddr : NormalizedAddress)
    (c : Candidate) (ns : ℚ)
    (hphone : phoneTruthy c = true)
    (hname : scoreNameMatch fuzz targetName c.name = some ns) :
    (pyStrip targetAddr.raw = "" →
      scoreCandidate fuzz targetName targetAddr c =
        some ((ns * 0.50 + scoreAddressMatch targetAddr (candAddressesOf c) * 0.10 +
            scoreLocationContext c.raw_text * 0.30 + scoreDataQuality c * 0.10) /
          (100 * (0.50 + 0.10 + 0.30 + 0.10)) * 100)) ∧
    (pyStrip targetAddr.raw ≠ "" →
      scoreCandidate fuzz targetName targetAddr c =
        some ((ns * 0.35 + scoreAddressMatch targetAddr (candAddressesOf c) * 0.45 +
            scoreLocationContext c.raw_text * 0.15 + scoreDataQuality c * 0.05) /
          (100 * (0.35 + 0.45 + 0.15 + 0.05)) * 100)) := by
  constructor
  · intro h
    have hbool : (targetAddr.raw != "" && pyStrip targetAddr.raw != "") = false := by
      simp [h]
    simp only [scoreCandidate, hphone, Bool.not_true, Bool.false_eq_true, if_false,
      hname, hbool, Bool.not_false, if_true]
    rw [if_pos (by norm_num)]
    congr 1
    ring
  · intro h
    have hne : targetAddr.raw ≠ "" := by
      intro hr
      apply h
      rw [hr]
      rfl
    have hbool : (targetAddr.raw != "" && pyStrip targetAddr.raw != "") = true := by
      simp [hne, h]
    simp only [scoreCandidate, hphone, Bool.not_true, Bool.false_eq_true, if_false,
      hname, hbool, Bool.not_true, if_true]
    rw [if_pos (by norm_num)]
    congr 1
    ring

/-- C2 witness: concrete instantiation in the empty-target-address regime. -/
theorem claim_C2_witness :
    scoreCandidate (fun _ _ => 0) (normalizeName "GARCIA MARIA")
      (normalizeAddress "") candPhoneOnly =
      some ((0 * 0.50 +
          scoreAddressMatch (normalizeAddress "") (candAddressesOf candPhoneOnly) * 0.10 +
          scoreLocationContext candPhoneOnly.raw_text * 0.30 +
          scoreDataQuality candPhoneOnly * 0.10) /
        (100 * (0.50 + 0.10 + 0.30 + 0.10)) * 100) :=
  (claim_C2_weighted_average (fun _ _ => 0) (normalizeName "GARCIA MARIA")
    (normalizeAddress "") candPhoneOnly 0 rfl rfl).1 rfl

/-! ## Helper lemmas about street numbers and digit runs -/

/-- A non-empty string has a non-empty character list. -/
lemma data_ne_nil_of_ne (s : String) (h : s ≠ "") : s.data ≠ [] := by
  intro hd
  apply h
  cases s with
  | mk d =>
    simp only at hd
    rw [hd]

/-- Every character of the string produced by `scanStreetNum` is a digit,
provided the accumulator holds only digits. -/
lemma scanStreetNum_digits (cs : List Char) : ∀ (prevWord : Bool) (acc : List Char),
    (∀ ch ∈ acc, ch.isDigit = true) →
    ∀ ch ∈ (scanStreetNum prevWord acc cs).data, ch.isDigit = true := by
  induction cs with
  | nil =>
    intro prevWord acc hacc ch hch
    unfold scanStreetNum at hch
    split_ifs at hch
    · simp at hch
    · rw [show (String.mk acc.reverse).data = acc.reverse from rfl,
        List.mem_reverse] at hch
      exact hacc ch hch
  | cons c cs ih =>
    intro prevWord acc hacc ch hch
    unfold scanStreetNum at hch
    split_ifs at hch with h1 h2 h3 h4
    · refine ih true (c :: acc) ?_ ch hch
      intro x hx
      rcases List.mem_cons.mp hx with hx | hx
      · rw [hx]; exact h1
      · exact hacc x hx
    · refine ih true [c] ?_ ch hch
      intro x hx
      rcases List.mem_cons.mp hx with hx | hx
      · rw [hx]; exact h1
      · simp at hx
    · exact ih true [] (by simp) ch hch
    · rw [show (String.mk acc.reverse).data = acc.reverse from rfl,
        List.mem_reverse] at hch
      exact hacc ch hch
    · exact ih (isWordChar c) [] (by simp) ch hch

/-- The `street_num` extracted by `normalize_address` consists of digits
only. -/
lemma normalizeAddress_street_num_digits (a : String) :
    ∀ ch ∈ (normalizeAddress a).street_num.data, ch.isDigit = true := by
  unfold normalizeAddress
  split_ifs with h
  · intro ch hch
    simp at hch
  · intro ch hch
    exact scanStreetNum_digits (pyCleanAddr a).data false [] (by simp) ch hch

/-- On an all-digit input list, `digitRunsAux` produces one single run made
of the accumulator and the whole input. -/
lemma digitRunsAux_all_digits (l : List Char) : ∀ acc : List Char,
    (∀ ch ∈ l, ch.isDigit = true) →
    digitRunsAux acc l =
      if (acc.isEmpty && l.isEmpty) = true then []
      else [String.mk (acc.reverse ++ l)] := by
  induction l with
  | nil =>
    intro acc _
    unfold digitRunsAux
    rcases em (acc.isEmpty = true) with ha | ha <;> simp [ha]
  | cons c cs ih =>
    intro acc hl
    have hc : c.isDigit = true := hl c (by simp)
    unfold digitRunsAux
    rw [if_pos hc, ih (c :: acc) (fun x hx => hl x (by simp [hx]))]
    simp

/-- Evaluating `re.findall(r'\d+', s)` on a non-empty all-digit string returns just
that string. -/
lemma digitRuns_self (s : String) (hne : s ≠ "")
    (hd : ∀ ch ∈ s.data, ch.isDigit = true) : digitRuns s = [s] := by
  unfold digitRuns
  rw [digitRunsAux_all_digits s.data [] hd]
  have hdata := data_ne_nil_of_ne s hne
  simp [hdata]

/-- Characterization of the +25 digit bonus for addresses with all-digit
street numbers: it fires exactly when both street numbers are non-empty
and equal. -/
lemma digitBonus_eq_25_iff (A B : NormalizedAddress)
    (hA : ∀ ch ∈ A.street_num.data, ch.isDigit = true)
    (hB : ∀ ch ∈ B.street_num.data, ch.isDigit = true) :
    digitBonus A B = 25 ↔
      A.street_num ≠ "" ∧ A.street_num = B.street_num := by
  unfold digitBonus
  rcases em (A.street_num = "") with hA0 | hA0
  · simp [hA0]
  · rcases em (B.street_num = "") with hB0 | hB0
    · simp [hB0, hA0]
    · have rA : (digitRuns A.street_num).dedup = [A.street_num] := by
        rw [digitRuns_self _ hA0 hA]
        simp
      have rB : (digitRuns B.street_num).dedup = [B.street_num] := by
        rw [digitRuns_self _ hB0 hB]
        simp
      simp only [rA, rB]
      rcases em (A.street_num = B.street_num) with he | he <;>
        simp [hA0, hB0, he]

/-- The street-name term is never negative. -/
lemma streetNameScore_nonneg (A B : NormalizedAddress) :
    0 ≤ streetNameScore A B := by
  unfold streetNameScore
  split_ifs <;> norm_num

/-- The token-overlap term is never negative. -/
lemma tokenOverlapScore_nonneg (A B : NormalizedAddress) :
    0 ≤ tokenOverlapScore A B := by
  unfold tokenOverlapScore
  split_ifs
  · positivity
  · norm_num

/-- The word-bonus term is never negative. -/
lemma wordBonus_nonneg (A B : NormalizedAddress) : 0 ≤ wordBonus A B := by
  simp only [wordBonus]
  split_ifs
  · exact le_min (by positivity) (by norm_num)
  · norm_num

/-! ## Claim theorems: address similarity -/

/-- C9: for normalized addresses, the +25 digit partial-match bonus of
`calculate_partial_matches` is awarded exactly when both street numbers
are non-empty and equal (street numbers are single maximal digit runs);
consequently an exact street-number match contributes 50 + 25 = 75 points
and the pairwise similarity is then at least 75, never 50 alone. -/
theorem claim_C9_digit_bonus (a b : String) :
    (digitBonus (normalizeAddress a) (normalizeAddress b) = 25 ↔
      (normalizeAddress a).street_num ≠ "" ∧
      (normalizeAddress a).street_num = (normalizeAddress b).street_num) ∧
    ((normalizeAddress a).street_num ≠ "" →
      (normalizeAddress a).street_num = (normalizeAddress b).street_num →
      streetNumScore (normalizeAddress a) (normalizeAddress b) +
        digitBonus (normalizeAddress a) (normalizeAddress b) = 75 ∧
      75 ≤ calculateAddressSimilarity (normalizeAddress a) (normalizeAddress b)) := by
  have hiff := digitBonus_eq_25_iff (normalizeAddress a) (normalizeAddress b)
    (normalizeAddress_street_num_digits a) (normalizeAddress_street_num_digits b)
  refine ⟨hiff, ?_⟩
  intro h1 h2
  have hbonus : digitBonus (normalizeAddress a) (normalizeAddress b) = 25 :=
    hiff.mpr ⟨h1, h2⟩
  have hnum : streetNumScore (normalizeAddress a) (normalizeAddress b) = 50 := by
    have h1b : (normalizeAddress b).street_num ≠ "" := h2 ▸ h1
    unfold streetNumScore
    simp [h1, h2, h1b]
  refine ⟨by rw [hnum, hbonus]; norm_num, ?_⟩
  unfold calculateAddressSimilarity calculatePartialMatches
  rw [hnum, hbonus]
  have hname := streetNameScore_nonneg (normalizeAddress a) (normalizeAddress b)
  have htok := tokenOverlapScore_nonneg (normalizeAddress a) (normalizeAddress b)
  have hword := wordBonus_nonneg (normalizeAddress a) (normalizeAddress b)
  linarith

/-- C9 witness: two concrete addresses with the same street number. -/
theorem claim_C9_witness :
    streetNumScore (normalizeAddress "123 MAIN") (normalizeAddress "123 OAK") +
      digitBonus (normalizeAddress "123 MAIN") (normalizeAddress "123 OAK") = 75 ∧
    75 ≤ calculateAddressSimilarity (normalizeAddress "123 MAIN")
      (normalizeAddress "123 OAK") :=
  (claim_C9_digit_bonus "123 MAIN" "123 OAK").2 (by decide) (by decide)

/-- C6: `calculate_address_similarity` is asymmetric on the normalizations
of "123 MAIN ST" and "123 MAIN STREET APT 4": the forward direction gives
135, the reverse gives 130 (the token-overlap term divides by the target's
token count: 3 forward, 4 backward). -/
theorem claim_C6_asymmetry :
    calculateAddressSimilarity (normalizeAddress "123 MAIN ST")
      (normalizeAddress "123 MAIN STREET APT 4") = 135 ∧
    calculateAddressSimilarity (normalizeAddress "123 MAIN STREET APT 4")
      (normalizeAddress "123 MAIN ST") = 130 ∧
    calculateAddressSimilarity (normalizeAddress "123 MAIN ST")
        (normalizeAddress "123 MAIN STREET APT 4") ≠
      calculateAddressSimilarity (normalizeAddress "123 MAIN STREET APT 4")
        (normalizeAddress "123 MAIN ST") := by
  have hf : calculateAddressSimilarity (normalizeAddress "123 MAIN ST")
      (normalizeAddress "123 MAIN STREET APT 4") = 135 := by
    have h1 : streetNumScore (normalizeAddress "123 MAIN ST")
        (normalizeAddress "123 MAIN STREET APT 4") = 50 := rfl
    have h2 : streetNameScore (normalizeAddress "123 MAIN ST")
        (normalizeAddress "123 MAIN STREET APT 4") = 20 := rfl
    have h3 : tokenOverlapScore (normalizeAddress "123 MAIN ST")
        (normalizeAddress "123 MAIN STREET APT 4")
        = ((2 : ℕ) : ℚ) / ((3 : ℕ) : ℚ) * 30 := rfl
    have h4 : digitBonus (normalizeAddress "123 MAIN ST")
        (normalizeAddress "123 MAIN STREET APT 4") = 25 := rfl
    have h5 : wordBonus (normalizeAddress "123 MAIN ST")
        (normalizeAddress "123 MAIN STREET APT 4")
        = min (((2 : ℕ) : ℚ) * 10) 25 := rfl
    unfold calculateAddressSimilarity calculatePartialMatches
    rw [h1, h2, h3, h4, h5]
    rw [min_def]
    norm_num
  have hb : calculateAddressSimilarity (normalizeAddress "123 MAIN STREET APT 4")
      (normalizeAddress "123 MAIN ST") = 130 := by
    have h1 : streetNumScore (normalizeAddress "123 MAIN STREET APT 4")
        (normalizeAddress "123 MAIN ST") = 50 := rfl
    have h2 : streetNameScore (normalizeAddress "123 MAIN STREET APT 4")
        (normalizeAddress "123 MAIN ST") = 20 := rfl
    have h3 : tokenOverlapScore (normalizeAddress "123 MAIN STREET APT 4")
        (normalizeAddress "123 MAIN ST")
        = ((2 : ℕ) : ℚ) / ((4 : ℕ) : ℚ) * 30 := rfl
    have h4 : digitBonus (normalizeAddress "123 MAIN STREET APT 4")
        (normalizeAddress "123 MAIN ST") = 25 := rfl
    have h5 : wordBonus (normalizeAddress "123 MAIN STREET APT 4")
        (normalizeAddress "123 MAIN ST")
        = min (((2 : ℕ) : ℚ) * 10) 25 := rfl
    unfold calculateAddressSimilarity calculatePartialMatches
    rw [h1, h2, h3, h4, h5]
    rw [min_def]
    norm_num
  refine ⟨hf, hb, ?_⟩
  rw [hf, hb]
  norm_num
